import Mathlib

/-!
Verification of the bow update decision engine.

The development embeds the data model and operations of the update
decision engine (image reference parsing, semver evaluation, policies,
and `checkForUpdate`), together with the helm provider's
`getbowConfig`, and proves the spec's claims about them.

The engine itself (package `internal/policy`, `util/image` and the
kubernetes provider's `checkForUpdate`) is not part of the provided
sources; only its test suite is.  Those definitions are modelled from
the spec, with every behavioural point that the test suite pins
(expected plans, rewritten image strings, accept/reject outcomes)
reproduced exactly as the tests demand.
-/

namespace Bow

/-- Decidable equality for `Except`, so that concrete engine results
can be checked by `decide`. -/
instance exceptDecEq {ε α : Type} [DecidableEq ε] [DecidableEq α] :
    DecidableEq (Except ε α) := fun a b => by
  cases a <;> cases b
  case error.error x y => exact decidable_of_iff (x = y) (by simp)
  case error.ok x y => exact Decidable.isFalse (by simp)
  case ok.error x y => exact Decidable.isFalse (by simp)
  case ok.ok x y => exact decidable_of_iff (x = y) (by simp)

/-! ## Character-list string utilities

The Go code works with `strings.Split`-style helpers; the model uses
structural recursion over character lists so that every concrete run
reduces inside the kernel. -/

/-- Split a character list at every occurrence of a separator
character (the semantics of `strings.Split` for one-character
separators). -/
def splitList (sep : Char) : List Char → List (List Char)
  | [] => [[]]
  | c :: cs =>
    match splitList sep cs with
    | [] => [[c]]
    | h :: t => if c == sep then [] :: h :: t else (c :: h) :: t

/-- Join character lists with a separator character (the inverse of
`splitList`). -/
def joinList (sep : Char) : List (List Char) → List Char
  | [] => []
  | [x] => x
  | x :: y :: t => x ++ sep :: joinList sep (y :: t)

/-- Whether the first character list is an initial segment of the
second. -/
def startsWithChars : List Char → List Char → Bool
  | [], _ => true
  | _ :: _, [] => false
  | p :: ps, c :: cs => p == c && startsWithChars ps cs

/-- Parse a non-empty all-digit character list as a natural number. -/
def charsToNat (cs : List Char) : Option Nat :=
  if cs.isEmpty then none
  else if cs.all (fun c => c.isDigit) then
    some (cs.foldl (fun n c => n * 10 + (c.toNat - 48)) 0)
  else none

/-! ## Image references (spec section 4.1) -/

/-- Modelled from the spec: the default registry host that is prepended
to short-form references (the public Docker Hub host). -/
def defaultHost : String := "index.docker.io"

/-- Modelled from the spec: the default namespace prepended to
single-segment Docker Hub repositories. -/
def officialNamespace : String := "library"

/-- Modelled from the spec: a parsed image reference with defaulted
host, repository path, tag and optional digest. -/
structure ImageRef where
  host : String
  repository : String
  tag : String
  digest : Option String
deriving DecidableEq, Repr

/-- Modelled from the spec: parsing fails with `ErrMalformedReference`. -/
inductive ParseError where
  | malformedReference
deriving DecidableEq, Repr

/-- Modelled from the spec: tag characters are restricted to
`[A-Za-z0-9_.-]`. -/
def validTagChar (c : Char) : Bool :=
  c.isAlphanum || c == '_' || c == '.' || c == '-'

/-- Modelled from the spec: a tag is valid when non-empty, at most 128
characters long, and made of valid tag characters. -/
def validTag (t : List Char) : Bool :=
  !t.isEmpty && t.length ≤ 128 && t.all validTagChar

/-- Modelled from the spec: split an optional digest (`algo ':' hex`)
off the end of a reference string; a malformed digest is an error. -/
def splitDigest (s : List Char) : Except ParseError (List Char × Option (List Char)) :=
  match splitList '@' s with
  | [b] => .ok (b, none)
  | [b, d] =>
    match splitList ':' d with
    | [algo, hex] =>
        if algo.isEmpty || hex.isEmpty then .error .malformedReference
        else .ok (b, some d)
    | _ => .error .malformedReference
  | _ => .error .malformedReference

/-- Modelled from the spec: the segment before the first `/` is a host
only when it contains a `.` or a `:` or is `localhost`; otherwise the
whole string is a path under the default host. -/
def splitHost (base : List Char) : List Char × List Char :=
  match splitList '/' base with
  | [] => (defaultHost.data, base)
  | first :: rest =>
    if !rest.isEmpty &&
        (first.contains '.' || first.contains ':' || first == "localhost".data)
    then (first, joinList '/' rest)
    else (defaultHost.data, base)

/-- Modelled from the spec: `Parse` applies the defaulting rules of
section 4.1 — default host, `library/` namespace for single-segment
Docker Hub paths, and tag defaulting to `latest`. -/
def parseImage (s : String) : Except ParseError ImageRef := do
  if s.data.isEmpty then throw ParseError.malformedReference
  let (base, dig) ← splitDigest s.data
  let (host, rest) := splitHost base
  let (path, tag) ←
    match splitList ':' rest with
    | [p] => pure (p, "latest".data)
    | [p, t] =>
        if validTag t then pure (p, t) else throw ParseError.malformedReference
    | _ => throw ParseError.malformedReference
  if path.isEmpty then throw ParseError.malformedReference
  let repository :=
    if host == defaultHost.data && !path.contains '/'
    then (officialNamespace ++ "/").data ++ path
    else path
  pure ⟨String.mk host, String.mk repository, String.mk tag, dig.map String.mk⟩

/-- Modelled from the spec and pinned by the tests: the image string
written back into a container uses the familiar rendering of the
repository — the default Docker Hub host (and its `library/`
namespace) are omitted, other hosts are kept.  The test
`dockerhub short image name` expects `karolisr/bow:0.2.0`, not the
host-prefixed canonical form. -/
def familiarName (r : ImageRef) : String :=
  if r.host == defaultHost then
    (if startsWithChars (officialNamespace ++ "/").data r.repository.data
     then String.mk (r.repository.data.drop (officialNamespace ++ "/").length)
     else r.repository)
  else r.host ++ "/" ++ r.repository

/-- The image string a matched container is rewritten to. -/
def renderNewImage (r : ImageRef) : String :=
  familiarName r ++ ":" ++ r.tag

/-- Follows the spec's words (sections 3 and 4.1), for comparison with
the behaviour the tests pin: the canonical form renders
`host/repository:tag`, prepending the defaulted host. -/
def specCanonicalString (r : ImageRef) : String :=
  r.host ++ "/" ++ r.repository ++ ":" ++ r.tag

/-! ## Semver evaluator (spec section 4.2) -/

/-- Modelled from the spec: a parsed semantic version with optional
`v` prefix and pre-release identifiers. -/
structure SemVer where
  major : Nat
  minor : Nat
  patch : Nat
  pre : List String
  hadV : Bool
deriving DecidableEq, Repr

/-- Modelled from the spec: a tag is semver-parseable iff it matches
the regular expression given in section 3, with a `v` prefix, three
numeric components and an optional dash-separated pre-release part
made of characters `[0-9A-Za-z.-]`. -/
def parseSemver (s : String) : Option SemVer :=
  let hasV := startsWithChars ['v'] s.data
  let body := if hasV then s.data.drop 1 else s.data
  match splitList '-' body with
  | [] => none
  | core :: rest =>
    match splitList '.' core with
    | [a, b, c] =>
      match charsToNat a, charsToNat b, charsToNat c with
      | some ma, some mi, some pa =>
        match rest with
        | [] => some ⟨ma, mi, pa, [], hasV⟩
        | _ =>
          let preChars := joinList '-' rest
          if preChars.isEmpty then none
          else if preChars.all (fun ch => ch.isAlphanum || ch == '.' || ch == '-')
          then some ⟨ma, mi, pa, (splitList '.' preChars).map String.mk, hasV⟩
          else none
      | _, _, _ => none
    | _ => none

/-- Three-way comparison of naturals as an integer sign. -/
def cmpN (a b : Nat) : Int :=
  if a < b then -1 else if b < a then 1 else 0

/-- Modelled from the spec: SemVer 2.0 pre-release identifier
comparison — numeric identifiers compare numerically and are lower
than alphanumeric ones, which compare lexically. -/
def cmpIdent (a b : String) : Int :=
  match charsToNat a.data, charsToNat b.data with
  | some x, some y => cmpN x y
  | some _, none => -1
  | none, some _ => 1
  | none, none => if a < b then -1 else if b < a then 1 else 0

/-- Modelled from the spec: pre-release identifier lists compare
pointwise, a strict prefix being lower. -/
def cmpPre : List String → List String → Int
  | [], [] => 0
  | [], _ :: _ => -1
  | _ :: _, [] => 1
  | a :: as, b :: bs =>
      let c := cmpIdent a b
      if c = 0 then cmpPre as bs else c

/-- Modelled from the spec: `Compare(a, b) -> -1|0|1` following the
SemVer 2.0 ordering, where a pre-release is lower than the release
with the same core. -/
def semverCompare (a b : SemVer) : Int :=
  if a.major ≠ b.major then cmpN a.major b.major
  else if a.minor ≠ b.minor then cmpN a.minor b.minor
  else if a.patch ≠ b.patch then cmpN a.patch b.patch
  else
    match a.pre, b.pre with
    | [], [] => 0
    | [], _ :: _ => 1
    | _ :: _, [] => -1
    | x :: xs, y :: ys => cmpPre (x :: xs) (y :: ys)

/-- Modelled from the spec: the kind of version bump from one version
to another. -/
inductive BumpType where
  | major
  | minor
  | patch
  | none
deriving DecidableEq, Repr

/-- Modelled from the spec: `BumpKind` classifies the delta between
two versions; a pre-release-only difference is never a bump. -/
def bumpKind (a b : SemVer) : BumpType :=
  if b.major > a.major then BumpType.major
  else if b.minor > a.minor then BumpType.minor
  else if b.patch > a.patch then BumpType.patch
  else BumpType.none

/-! ## Policies (spec section 4.3) -/

/-- Modelled from the spec: the semver gate — the maximum permitted
bump kind. -/
inductive SemverGate where
  | all
  | major
  | minor
  | patch
deriving DecidableEq, Repr

/-- Modelled from the spec: the policy sum type.  The `regexp` family
is omitted from the model (no claim exercises it); unrecognised policy
strings yield `nilPolicy`. -/
inductive Policy where
  | force (matchTag : Bool)
  | glob (pattern : String)
  | semver (gate : SemverGate) (preReleases : Bool)
  | nilPolicy
deriving DecidableEq, Repr

/-- Modelled from the spec: which bump kinds a gate permits
(`All` permits any, `Major` permits Major/Minor/Patch, `Minor`
permits Minor/Patch, `Patch` permits Patch only). -/
def gatePermits : SemverGate → BumpType → Bool
  | SemverGate.all, _ => true
  | SemverGate.major, b => b != BumpType.none
  | SemverGate.minor, b => b == BumpType.minor || b == BumpType.patch
  | SemverGate.patch, b => b == BumpType.patch

/-- Modelled from the spec: the semver policy rejects unparseable
sides, rejects any pre-release on either side unless `preReleases` is
set, rejects a candidate not strictly greater than the current
version, and otherwise consults the gate. -/
def semverShouldUpdate (gate : SemverGate) (preReleases : Bool)
    (cur cand : String) : Bool :=
  match parseSemver cur, parseSemver cand with
  | some cv, some nv =>
    if !preReleases && (!cv.pre.isEmpty || !nv.pre.isEmpty) then false
    else if semverCompare nv cv ≤ 0 then false
    else gatePermits gate (bumpKind cv nv)
  | _, _ => false

/-- Shell-style wildcard matching over character lists (`*` and `?`). -/
def globChars : List Char → List Char → Bool
  | [], [] => true
  | [], _ :: _ => false
  | '*' :: ps, [] => globChars ps []
  | '*' :: ps, c :: cs => globChars ps (c :: cs) || globChars ('*' :: ps) cs
  | '?' :: _, [] => false
  | '?' :: ps, _ :: cs => globChars ps cs
  | _ :: _, [] => false
  | p :: ps, c :: cs => p == c && globChars ps cs
termination_by ps cs => (cs.length, ps.length)

/-- Modelled from the spec: glob patterns are matched against the
candidate tag after stripping the `glob:` prefix from the policy
name. -/
def globMatch (pat s : String) : Bool :=
  let stripped :=
    if startsWithChars "glob:".data pat.data then pat.data.drop 5 else pat.data
  globChars stripped s.data

/-- Modelled from the spec: `Accept(policy, currentTag, candidateTag)`
decides whether a candidate tag is acceptable relative to the current
tag. -/
def policyShouldUpdate : Policy → String → String → Bool
  | Policy.force mt, cur, cand => if mt then cur == cand else true
  | Policy.glob pat, _, cand => globMatch pat cand
  | Policy.semver g pr, cur, cand => semverShouldUpdate g pr cur cand
  | Policy.nilPolicy, _, _ => false

/-- Modelled from the spec: `Options` passed to policy construction;
carries the force policy's tag-match flag. -/
structure Options where
  matchTag : Bool
deriving DecidableEq, Repr

/-- Modelled from the spec: `GetPolicy` builds a policy from its
string form (`all`/`major`/`minor`/`patch` semver gates, `force` with
the match-tag option, `glob:` patterns); unrecognised strings yield
the nil policy. -/
def GetPolicy (name : String) (opts : Options) : Policy :=
  if name == "all" then Policy.semver SemverGate.all false
  else if name == "major" then Policy.semver SemverGate.major false
  else if name == "minor" then Policy.semver SemverGate.minor false
  else if name == "patch" then Policy.semver SemverGate.patch false
  else if name == "force" then Policy.force opts.matchTag
  else if startsWithChars "glob:".data name.data then Policy.glob name
  else Policy.nilPolicy

/-! ## Workloads and the update decision engine (spec sections 4.4, 4.5) -/

/-- A workload container: only its image string matters to the engine. -/
structure Container where
  image : String
deriving DecidableEq, Repr

/-- Modelled from the spec: the uniform workload view — identity,
top-level metadata, pod-template spec annotations and the ordered
container list. -/
structure Workload where
  name : String
  ns : String
  labels : List (String × String)
  annotations : List (String × String)
  specAnnotations : List (String × String)
  containers : List Container
deriving DecidableEq, Repr

/-- The candidate repository as delivered by an event
(`types.Repository`): optional explicit host, repository name, tag. -/
structure Repository where
  host : String
  name : String
  tag : String
deriving DecidableEq, Repr

/-- The reference string the engine parses for the candidate: the
explicit host, when present, is prepended to the name. -/
def Repository.refString (r : Repository) : String :=
  if r.host.data.isEmpty then r.name else r.host ++ "/" ++ r.name

/-- The candidate image reference: the parsed repository reference
with the event's tag substituted.  Unparseable references yield a
dummy reference (the engine surfaces the parse error separately). -/
def candidateRef (r : Repository) : ImageRef :=
  match parseImage r.refString with
  | .error _ => ⟨"", "", "", none⟩
  | .ok pr => { pr with tag := r.tag }

/-- Modelled from the spec: the update plan value object. -/
structure UpdatePlan where
  resource : Option Workload
  currentVersion : String
  newVersion : String
deriving DecidableEq, Repr

/-- The empty plan returned on every no-update outcome. -/
def emptyPlan : UpdatePlan := ⟨none, "", ""⟩

/-- The bookkeeping key stamped into the pod-template spec
annotations on every accepted plan. -/
def updateTimeKey : String := "bow.sh/update-time"

/-- Association-list lookup for metadata maps. -/
def lookupAnn : List (String × String) → String → Option String
  | [], _ => none
  | (k', v') :: rest, k => if k' == k then some v' else lookupAnn rest k

/-- Association-list upsert for metadata maps. -/
def setAnn : List (String × String) → String → String → List (String × String)
  | [], k, v => [(k, v)]
  | (k', v') :: rest, k, v =>
      if k' == k then (k, v) :: rest else (k', v') :: setAnn rest k v

/-- Modelled from the spec: a container matches the candidate when its
image parses, its canonicalised host and repository equal the
candidate's, and the policy accepts its current tag against the
candidate tag; a parse failure is a non-match (the container is
skipped). -/
def matchesCand (p : Policy) (cand : ImageRef) (img : String) : Bool :=
  match parseImage img with
  | .error _ => false
  | .ok cref =>
      cref.host == cand.host && cref.repository == cand.repository &&
        policyShouldUpdate p cref.tag cand.tag

/-- The (defaulted) tag of a container image string; unparseable
images report the empty tag (they never match anyway). -/
def containerTag (img : String) : String :=
  match parseImage img with
  | .error _ => ""
  | .ok cref => cref.tag

/-- Modelled from the spec (section 4.5): the update decision engine.
Rejects empty candidate tags, surfaces a candidate parse failure,
walks containers in declaration order, rewrites every matched
container to the candidate's rendered image, stamps the bookkeeping
annotation with the injected clock value, and reports the first
matched container's tag as the current version. -/
def checkForUpdate (p : Policy) (repo : Repository) (w : Workload)
    (now : String) : Except ParseError (UpdatePlan × Bool) :=
  if repo.tag.data.isEmpty then .ok (emptyPlan, false)
  else
    match parseImage repo.refString with
    | .error e => .error e
    | .ok _ =>
      match w.containers.filter (fun c => matchesCand p (candidateRef repo) c.image) with
      | [] => .ok (emptyPlan, false)
      | c0 :: _ =>
        .ok ({ resource := some
                 { w with
                   containers := w.containers.map (fun c =>
                     if matchesCand p (candidateRef repo) c.image
                     then { image := renderNewImage (candidateRef repo) }
                     else c),
                   specAnnotations := setAnn w.specAnnotations updateTimeKey now },
               currentVersion := containerTag c0.image,
               newVersion := (candidateRef repo).tag }, true)

/-! ## Helm provider configuration (src/provider/helm/helm.go) -/

/-- Errors of `getbowConfig`: a failure rendering the coalesced
values, a failure unmarshalling them, or `ErrPolicyNotSpecified`. -/
inductive HelmError where
  | valsYamlFailed
  | unmarshalFailed
  | policyNotSpecified
deriving DecidableEq, Repr

/-- The bow-related configuration taken from values.yaml
(`bowChartConfig` in helm.go); `plc` mirrors the `Plc` field excluded
from unmarshalling. -/
structure bowChartConfig where
  policy : String
  matchTag : Bool
  pollSchedule : String
  approvals : Nat
  approvalDeadline : Nat
  plc : Policy
deriving DecidableEq, Repr

/-- Root element of the values yaml (`Root` in helm.go). -/
structure Root where
  bow : bowChartConfig
deriving DecidableEq, Repr

/-- `getbowConfig` from helm.go: render the coalesced values to YAML,
unmarshal them into `Root`, fail with `policyNotSpecified` when the
unmarshalled policy string is empty, and otherwise return the config
with `plc` built from the policy string and the match-tag option.  The
YAML rendering and unmarshalling steps are passed in as abstract
computations. -/
def getbowConfig (yamlStep : Except String String)
    (unmarshal : String → Except String Root) : Except HelmError bowChartConfig :=
  match yamlStep with
  | .error _ => .error HelmError.valsYamlFailed
  | .ok yamlFull =>
    match unmarshal yamlFull with
    | .error _ => .error HelmError.unmarshalFailed
    | .ok r =>
      if r.bow.policy == "" then .error HelmError.policyNotSpecified
      else .ok { r.bow with plc := GetPolicy r.bow.policy ⟨r.bow.matchTag⟩ }

/-! ## Concrete fixtures from the test suite (src/unnamed/part_000) -/

/-- The semver-all policy used throughout the tests. -/
def semverAllP : Policy := Policy.semver SemverGate.all false

/-- The semver-minor policy used in the pre-release tests. -/
def semverMinorP : Policy := Policy.semver SemverGate.minor false

/-- Workload of the `standard version bump` test. -/
def wVB : Workload :=
  { name := "dep-1", ns := "xxxx",
    labels := [("bow.sh/policy", "all")], annotations := [],
    specAnnotations := [("this", "that")],
    containers := [⟨"gcr.io/v2-namespace/hello-world:1.1.1"⟩] }

/-- Candidate of the `standard version bump` test. -/
def repoVB : Repository := ⟨"", "gcr.io/v2-namespace/hello-world", "1.1.2"⟩

/-- Expected mutated workload of the `standard version bump` test. -/
def wVBafter : Workload :=
  { wVB with
    containers := [⟨"gcr.io/v2-namespace/hello-world:1.1.2"⟩],
    specAnnotations := [("this", "that"), (updateTimeKey, "T0")] }

/-- Expected plan of the `standard version bump` test. -/
def planVB : UpdatePlan := ⟨some wVBafter, "1.1.1", "1.1.2"⟩

/-- Workload of the `dockerhub short image name` test. -/
def wDH : Workload :=
  { name := "dep-1", ns := "xxxx",
    labels := [("bow.sh/policy", "force")], annotations := [],
    specAnnotations := [("this", "that")],
    containers := [⟨"karolisr/bow:latest"⟩] }

/-- Candidate of the `dockerhub short image name` test. -/
def repoDH : Repository := ⟨"", "karolisr/bow", "0.2.0"⟩

/-- Expected mutated workload of the `dockerhub short image name`
test: the image keeps the short Docker Hub form. -/
def wDHafter : Workload :=
  { wDH with
    containers := [⟨"karolisr/bow:0.2.0"⟩],
    specAnnotations := [("this", "that"), (updateTimeKey, "T0")] }

/-- Expected plan of the `dockerhub short image name` test. -/
def planDH : UpdatePlan := ⟨some wDHafter, "latest", "0.2.0"⟩

/-- A semver-all workload with two containers on the candidate's
repository, the second already above the candidate tag. -/
def wMix : Workload :=
  { name := "dep-1", ns := "xxxx", labels := [], annotations := [],
    specAnnotations := [("this", "that")],
    containers := [⟨"gcr.io/v2-namespace/hello-world:1.1.1"⟩,
                   ⟨"gcr.io/v2-namespace/hello-world:1.1.3"⟩] }

/-- Candidate for `wMix`. -/
def repoMix : Repository := ⟨"", "gcr.io/v2-namespace/hello-world", "1.1.2"⟩

/-- Mutated `wMix`: only the accepted container is rewritten; the
repo-matching container at `1.1.3` is left untouched. -/
def wMixAfter : Workload :=
  { wMix with
    containers := [⟨"gcr.io/v2-namespace/hello-world:1.1.2"⟩,
                   ⟨"gcr.io/v2-namespace/hello-world:1.1.3"⟩],
    specAnnotations := [("this", "that"), (updateTimeKey, "T0")] }

/-- Plan produced on `wMix`. -/
def planMix : UpdatePlan := ⟨some wMixAfter, "1.1.1", "1.1.2"⟩

/-- Workload of the `standard ignore version bump` test. -/
def wIgnore : Workload :=
  { name := "dep-1", ns := "xxxx",
    labels := [("bow.sh/policy", "all")], annotations := [],
    specAnnotations := [],
    containers := [⟨"gcr.io/v2-namespace/hello-world:1.1.1"⟩] }

/-- Candidate of the `standard ignore version bump` test: the tag
already deployed. -/
def repoIgnore : Repository := ⟨"", "gcr.io/v2-namespace/hello-world", "1.1.1"⟩

/-- Workload of the `staging pre-release` test. -/
def wPreCand : Workload :=
  { name := "dep-1", ns := "xxxx",
    labels := [("bow.sh/policy", "minor")], annotations := [],
    specAnnotations := [("this", "that")],
    containers := [⟨"gcr.io/v2-namespace/hello-prerelease:v1.1.1"⟩] }

/-- Candidate of the `staging pre-release` test: carries a
pre-release. -/
def repoPreCand : Repository :=
  ⟨"", "gcr.io/v2-namespace/hello-prerelease", "v1.1.2-staging"⟩

/-- Workload of the `normal new tag while there's pre-release` test:
the current tag carries the pre-release. -/
def wPreCur : Workload :=
  { name := "dep-1", ns := "xxxx",
    labels := [("bow.sh/policy", "minor")], annotations := [],
    specAnnotations := [("this", "that")],
    containers := [⟨"gcr.io/v2-namespace/hello-prerelease:v1.1.1-staging"⟩] }

/-- Candidate of the `normal new tag while there's pre-release`
test. -/
def repoPreCur : Repository :=
  ⟨"", "gcr.io/v2-namespace/hello-prerelease", "v1.1.2"⟩

/-- Workload of the `pubsub trigger, force-match, different tag`
test. -/
def wFMDiff : Workload :=
  { name := "dep-1", ns := "xxxx",
    labels := [("bow.sh/policy", "force"), ("bow.sh/match-tag", "true")],
    annotations := [], specAnnotations := [],
    containers := [⟨"karolisr/bow:latest-acceptance"⟩] }

/-- Candidate of the force-match different-tag test. -/
def repoFMDiff : Repository := ⟨"", "karolisr/bow", "latest-staging"⟩

/-- Workload of the `force update untagged container - match tag`
test. -/
def wFMEq : Workload :=
  { name := "dep-1", ns := "xxxx",
    labels := [("bow.sh/policy", "force"), ("bow.sh/match-tag", "true")],
    annotations := [], specAnnotations := [("this", "that")],
    containers := [⟨"gcr.io/v2-namespace/hello-world:1.1.2"⟩, ⟨"yo-world:1.1.1"⟩] }

/-- Candidate of the force-match equal-tag test. -/
def repoFMEq : Repository := ⟨"", "gcr.io/v2-namespace/hello-world", "1.1.2"⟩

/-- Expected mutated workload of the force-match equal-tag test: the
matched image is rewritten to the same string, the unrelated
container is untouched. -/
def wFMEqAfter : Workload :=
  { wFMEq with
    specAnnotations := [("this", "that"), (updateTimeKey, "T0")] }

/-- Expected plan of the force-match equal-tag test. -/
def planFMEq : UpdatePlan := ⟨some wFMEqAfter, "1.1.2", "1.1.2"⟩

/-- A workload with two containers on the candidate's repository at
different tags, the first at `latest`. -/
def wMulti : Workload :=
  { name := "dep-1", ns := "xxxx", labels := [], annotations := [],
    specAnnotations := [("this", "that")],
    containers := [⟨"gcr.io/v2-namespace/hello-world:latest"⟩,
                   ⟨"gcr.io/v2-namespace/hello-world:1.1.2"⟩] }

/-- Candidate for `wMulti`. -/
def repoMulti : Repository := ⟨"", "gcr.io/v2-namespace/hello-world", "1.1.2"⟩

/-- Mutated `wMulti`: both matched containers rewritten in one plan. -/
def wMultiAfter : Workload :=
  { wMulti with
    containers := [⟨"gcr.io/v2-namespace/hello-world:1.1.2"⟩,
                   ⟨"gcr.io/v2-namespace/hello-world:1.1.2"⟩],
    specAnnotations := [("this", "that"), (updateTimeKey, "T0")] }

/-- Plan produced on `wMulti`: the current version is the first
matched container's tag `latest`, not the second's. -/
def planMulti : UpdatePlan := ⟨some wMultiAfter, "latest", "1.1.2"⟩

/-- Workload of the `poll trigger, same tag` test: already at the
candidate tag. -/
def wMaster : Workload :=
  { name := "dep-1", ns := "xxxx",
    labels := [("bow.sh/policy", "force")],
    annotations := [("bow.sh/poll-schedule", "@every 1m")],
    specAnnotations := [("this", "that")],
    containers := [⟨"karolisr/bow:master"⟩] }

/-- Candidate of the `poll trigger, same tag` test. -/
def repoMaster : Repository := ⟨"", "karolisr/bow", "master"⟩

/-- Mutated `wMaster`: the image string is unchanged, only the
bookkeeping annotation is stamped. -/
def wMasterAfter : Workload :=
  { wMaster with
    specAnnotations := [("this", "that"), (updateTimeKey, "T1")] }

/-- Plan of the second force run on the already-updated workload. -/
def planMaster : UpdatePlan := ⟨some wMasterAfter, "master", "master"⟩

/-- A workload whose first container image is unparseable (empty
string) and whose second matches the candidate. -/
def wSkip : Workload :=
  { name := "dep-1", ns := "xxxx", labels := [], annotations := [],
    specAnnotations := [],
    containers := [⟨""⟩, ⟨"gcr.io/v2-namespace/hello-world"⟩] }

/-- Candidate for `wSkip`. -/
def repoSkip : Repository := ⟨"", "gcr.io/v2-namespace/hello-world", "latest"⟩

/-- Mutated `wSkip`: the unparseable container is skipped, the
matching one rewritten. -/
def wSkipAfter : Workload :=
  { wSkip with
    containers := [⟨""⟩, ⟨"gcr.io/v2-namespace/hello-world:latest"⟩],
    specAnnotations := [(updateTimeKey, "T0")] }

/-- Plan produced on `wSkip`. -/
def planSkip : UpdatePlan := ⟨some wSkipAfter, "latest", "latest"⟩

/-- Workload of the `force update untagged to latest` test. -/
def wUntagged : Workload :=
  { name := "dep-1", ns := "xxxx",
    labels := [("bow.sh/policy", "all")], annotations := [],
    specAnnotations := [("this", "that")],
    containers := [⟨"gcr.io/v2-namespace/hello-world"⟩] }

/-- Candidate of the `force update untagged to latest` test. -/
def repoUntagged : Repository := ⟨"", "gcr.io/v2-namespace/hello-world", "latest"⟩

/-- Expected mutated workload of the `force update untagged to
latest` test. -/
def wUntaggedAfter : Workload :=
  { wUntagged with
    containers := [⟨"gcr.io/v2-namespace/hello-world:latest"⟩],
    specAnnotations := [("this", "that"), (updateTimeKey, "T0")] }

/-- Expected plan of the `force update untagged to latest` test. -/
def planUntagged : UpdatePlan := ⟨some wUntaggedAfter, "latest", "latest"⟩

/-- A values root whose policy string is `all`, for the helm witness. -/
def rootAll : Root := ⟨⟨"all", false, "", 0, 0, Policy.nilPolicy⟩⟩

/-- The config `getbowConfig` returns on `rootAll`. -/
def cfgAll : bowChartConfig := ⟨"all", false, "", 0, 0, GetPolicy "all" ⟨false⟩⟩

/-! ## Helper lemmas -/

theorem lookupAnn_setAnn_self (l : List (String × String)) (k v : String) :
    lookupAnn (setAnn l k v) k = some v := by
  induction l with
  | nil => simp [setAnn, lookupAnn]
  | cons hd tl ih =>
    obtain ⟨a, b⟩ := hd
    by_cases hk : a == k
    · simp [setAnn, hk, lookupAnn]
    · simp [setAnn, hk, lookupAnn, ih]

theorem lookupAnn_setAnn_ne (l : List (String × String)) (k v j : String)
    (h : j ≠ k) : lookupAnn (setAnn l k v) j = lookupAnn l j := by
  have hkj : (k == j) = false := beq_eq_false_iff_ne.mpr (Ne.symm h)
  induction l with
  | nil => simp [setAnn, lookupAnn, hkj]
  | cons hd tl ih =>
    obtain ⟨a, b⟩ := hd
    by_cases hk : a == k
    · have ha : a = k := beq_iff_eq.mp hk
      subst ha
      simp [setAnn, lookupAnn, hkj]
    · simp [setAnn, hk, lookupAnn, ih]

theorem cmpIdent_self (a : String) : cmpIdent a a = 0 := by
  unfold cmpIdent
  cases h : charsToNat a.data with
  | none => simp [cmpN, lt_irrefl]
  | some x => simp [cmpN, lt_irrefl]

theorem cmpPre_self (l : List String) : cmpPre l l = 0 := by
  induction l with
  | nil => rfl
  | cons a as ih => simp [cmpPre, cmpIdent_self, ih]

theorem semverCompare_self (v : SemVer) : semverCompare v v = 0 := by
  unfold semverCompare
  simp only [ne_eq, not_true_eq_false, if_false, lt_irrefl]
  cases h : v.pre with
  | nil => simp
  | cons x xs => simp [cmpPre_self]

/-- Inversion of a successful engine run: the matched containers form
a non-empty filter, and the plan is exactly the mutated workload with
the first match's tag as the current version. -/
theorem checkForUpdate_ok_true (p : Policy) (repo : Repository) (w : Workload)
    (now : String) (plan : UpdatePlan)
    (h : checkForUpdate p repo w now = .ok (plan, true)) :
    ∃ c0 rest,
      w.containers.filter (fun c => matchesCand p (candidateRef repo) c.image) = c0 :: rest ∧
      plan = { resource := some
                 { w with
                   containers := w.containers.map (fun c =>
                     if matchesCand p (candidateRef repo) c.image
                     then { image := renderNewImage (candidateRef repo) }
                     else c),
                   specAnnotations := setAnn w.specAnnotations updateTimeKey now },
               currentVersion := containerTag c0.image,
               newVersion := (candidateRef repo).tag } := by
  unfold checkForUpdate at h
  split at h
  · simp [emptyPlan] at h
  · split at h
    · simp at h
    · split at h
      · simp [emptyPlan] at h
      · rename_i c0 rest heq
        refine ⟨c0, rest, heq, ?_⟩
        simp only [Except.ok.injEq, Prod.mk.injEq] at h
        exact h.1.symm

/-! ## Claim theorems -/

/-- C1: whenever `checkForUpdate` returns `(plan, true, nil)`, the
plan's resource equals the input workload everywhere except the image
field of the matched containers and the single pod-template
spec-annotation key `bow.sh/update-time`, whose value is the injected
clock value; every non-matching container, every other
spec-annotation key, and the workload's name, namespace, labels and
annotations are unchanged. -/
theorem checkForUpdate_frame (p : Policy) (repo : Repository) (w : Workload)
    (now : String) (plan : UpdatePlan)
    (h : checkForUpdate p repo w now = .ok (plan, true)) :
    ∃ w', plan.resource = some w' ∧
      w'.name = w.name ∧ w'.ns = w.ns ∧
      w'.labels = w.labels ∧ w'.annotations = w.annotations ∧
      w'.containers.length = w.containers.length ∧
      (∀ i : Nat, ∀ hi : i < w.containers.length, ∀ hi' : i < w'.containers.length,
        matchesCand p (candidateRef repo) w.containers[i].image = false →
        w'.containers[i] = w.containers[i]) ∧
      lookupAnn w'.specAnnotations updateTimeKey = some now ∧
      (∀ k, k ≠ updateTimeKey →
        lookupAnn w'.specAnnotations k = lookupAnn w.specAnnotations k) := by
  obtain ⟨c0, rest, hfil, hplan⟩ := checkForUpdate_ok_true p repo w now plan h
  subst hplan
  refine ⟨_, rfl, rfl, rfl, rfl, rfl, by simp, ?_, ?_, ?_⟩
  · intro i hi hi' hm
    simp only [List.getElem_map]
    simp [hm]
  · exact lookupAnn_setAnn_self _ _ _
  · intro k hk
    exact lookupAnn_setAnn_ne _ _ _ _ hk

/-- C1 witness: the frame property instantiated on the `standard
version bump` test fixture. -/
theorem checkForUpdate_frame_witness :
    ∃ w', planVB.resource = some w' ∧
      w'.name = wVB.name ∧ w'.ns = wVB.ns ∧
      w'.labels = wVB.labels ∧ w'.annotations = wVB.annotations ∧
      w'.containers.length = wVB.containers.length ∧
      (∀ i : Nat, ∀ hi : i < wVB.containers.length, ∀ hi' : i < w'.containers.length,
        matchesCand semverAllP (candidateRef repoVB) wVB.containers[i].image = false →
        w'.containers[i] = wVB.containers[i]) ∧
      lookupAnn w'.specAnnotations updateTimeKey = some "T0" ∧
      (∀ k, k ≠ updateTimeKey →
        lookupAnn w'.specAnnotations k = lookupAnn wVB.specAnnotations k) :=
  checkForUpdate_frame semverAllP repoVB wVB "T0" planVB (by decide)

/-- C2 counterexample: the claim fails as stated, in two ways the
tests pin.  First, on the `dockerhub short image name` fixture the
accepted candidate `karolisr/bow:0.2.0` rewrites the container to the
short form `karolisr/bow:0.2.0`, not to the canonical form
`index.docker.io/karolisr/bow:0.2.0` obtained by prepending the
default host.  Second, a container whose repository equals the
candidate's after canonicalisation but whose tag the policy rejects
(here `1.1.3` against candidate `1.1.2` under semver-all) is not
rewritten at all. -/
theorem rewrite_canonical_counterexample :
    checkForUpdate (Policy.force false) repoDH wDH "T0" = .ok (planDH, true) ∧
    planDH.resource = some wDHafter ∧
    wDHafter.containers = [⟨"karolisr/bow:0.2.0"⟩] ∧
    specCanonicalString (candidateRef repoDH) = "index.docker.io/karolisr/bow:0.2.0" ∧
    ("karolisr/bow:0.2.0" : String) ≠ "index.docker.io/karolisr/bow:0.2.0" ∧
    checkForUpdate semverAllP repoMix wMix "T0" = .ok (planMix, true) ∧
    planMix.resource = some wMixAfter ∧
    parseImage "gcr.io/v2-namespace/hello-world:1.1.3" =
      .ok ⟨"gcr.io", "v2-namespace/hello-world", "1.1.3", none⟩ ∧
    (candidateRef repoMix).host = "gcr.io" ∧
    (candidateRef repoMix).repository = "v2-namespace/hello-world" ∧
    wMixAfter.containers = [⟨"gcr.io/v2-namespace/hello-world:1.1.2"⟩,
                            ⟨"gcr.io/v2-namespace/hello-world:1.1.3"⟩] ∧
    ("gcr.io/v2-namespace/hello-world:1.1.3" : String) ≠
      specCanonicalString (candidateRef repoMix) := by
  refine ⟨by decide, by decide, by decide, by decide, by decide, by decide,
    by decide, by decide, by decide, by decide, by decide, by decide⟩

/-- C2 (amended): for every accepted decision, every container whose
image parses, whose canonicalised host and repository equal the
candidate's, and whose current tag the policy accepts, has its image
rewritten to the candidate's familiar rendering
`[host/]repository:tag` — the default Docker Hub host (and its
`library` namespace) are omitted, so a short-form candidate stays in
short form. -/
theorem checkForUpdate_rewrites_matched (p : Policy) (repo : Repository)
    (w : Workload) (now : String) (plan : UpdatePlan)
    (h : checkForUpdate p repo w now = .ok (plan, true)) :
    ∃ w', plan.resource = some w' ∧
      w'.containers.length = w.containers.length ∧
      ∀ i : Nat, ∀ hi : i < w.containers.length, ∀ hi' : i < w'.containers.length,
        matchesCand p (candidateRef repo) w.containers[i].image = true →
        w'.containers[i].image = renderNewImage (candidateRef repo) := by
  obtain ⟨c0, rest, hfil, hplan⟩ := checkForUpdate_ok_true p repo w now plan h
  subst hplan
  refine ⟨_, rfl, by simp, ?_⟩
  intro i hi hi' hm
  simp only [List.getElem_map]
  simp [hm]

/-- C2 witness: the amended rewrite property instantiated on the
`dockerhub short image name` fixture. -/
theorem checkForUpdate_rewrites_matched_witness :
    ∃ w', planDH.resource = some w' ∧
      w'.containers.length = wDH.containers.length ∧
      ∀ i : Nat, ∀ hi : i < wDH.containers.length, ∀ hi' : i < w'.containers.length,
        matchesCand (Policy.force false) (candidateRef repoDH) wDH.containers[i].image = true →
        w'.containers[i].image = renderNewImage (candidateRef repoDH) :=
  checkForUpdate_rewrites_matched (Policy.force false) repoDH wDH "T0" planDH (by decide)

/-- C3: for all semver-parseable tags, when the candidate compares
less than or equal to the current version (the candidate is not
strictly greater), the semver-all policy with pre-releases disabled
rejects it; in particular, a candidate tag equal to the deployed tag
makes `checkForUpdate` return the empty plan with no update and no
error (the `standard ignore version bump` fixture). -/
theorem semver_all_rejects_nonincrease :
    (∀ (t1 t2 : String) (v1 v2 : SemVer),
      parseSemver t1 = some v1 → parseSemver t2 = some v2 →
      semverCompare v2 v1 ≤ 0 →
      policyShouldUpdate (Policy.semver SemverGate.all false) t1 t2 = false) ∧
    checkForUpdate semverAllP repoIgnore wIgnore "T0" = .ok (emptyPlan, false) := by
  constructor
  · intro t1 t2 v1 v2 h1 h2 hc
    show semverShouldUpdate SemverGate.all false t1 t2 = false
    unfold semverShouldUpdate
    simp only [h1, h2]
    split_ifs with hpre
    · rfl
    · rfl
  · decide

/-- C3 witness: the rejection instantiated at current tag `1.1.2` and
candidate tag `1.1.1`. -/
theorem semver_all_rejects_nonincrease_witness :
    policyShouldUpdate (Policy.semver SemverGate.all false) "1.1.2" "1.1.1" = false :=
  semver_all_rejects_nonincrease.1 "1.1.2" "1.1.1"
    ⟨1, 1, 2, [], false⟩ ⟨1, 1, 1, [], false⟩ (by decide) (by decide) (by decide)

/-- C4: with pre-releases disabled the semver policy rejects
symmetrically whenever either side carries a pre-release, for every
gate; in particular both pre-release fixtures of the test suite
(candidate `v1.1.2-staging` against current `v1.1.1`, and candidate
`v1.1.2` against current `v1.1.1-staging`, both with a strictly
greater candidate core) make `checkForUpdate` return the empty plan
with no update and no error. -/
theorem semver_rejects_prerelease_symmetric :
    (∀ (g : SemverGate) (t1 t2 : String) (v1 v2 : SemVer),
      parseSemver t1 = some v1 → parseSemver t2 = some v2 →
      (v1.pre ≠ [] ∨ v2.pre ≠ []) →
      policyShouldUpdate (Policy.semver g false) t1 t2 = false) ∧
    checkForUpdate semverMinorP repoPreCand wPreCand "T0" = .ok (emptyPlan, false) ∧
    checkForUpdate semverMinorP repoPreCur wPreCur "T0" = .ok (emptyPlan, false) := by
  refine ⟨?_, by decide, by decide⟩
  intro g t1 t2 v1 v2 h1 h2 h3
  show semverShouldUpdate g false t1 t2 = false
  unfold semverShouldUpdate
  simp only [h1, h2]
  have hb : (!v1.pre.isEmpty || !v2.pre.isEmpty) = true := by
    rcases h3 with h | h
    · cases hv : v1.pre with
      | nil => exact absurd hv h
      | cons a l => simp [hv]
    · cases hv : v2.pre with
      | nil => exact absurd hv h
      | cons a l => simp [hv]
  simp [hb]

/-- C4 witness: the symmetric rejection instantiated with current
`v1.1.1` and pre-release candidate `v1.1.2-staging` under the minor
gate. -/
theorem semver_rejects_prerelease_symmetric_witness :
    policyShouldUpdate (Policy.semver SemverGate.minor false)
      "v1.1.1" "v1.1.2-staging" = false :=
  semver_rejects_prerelease_symmetric.1 SemverGate.minor "v1.1.1" "v1.1.2-staging"
    ⟨1, 1, 1, [], true⟩ ⟨1, 1, 2, ["staging"], true⟩
    (by decide) (by decide) (Or.inr (by decide))

/-- C5: the force policy with tag matching accepts exactly when the
container's (defaulted) current tag equals the candidate tag; on the
different-tag fixture `checkForUpdate` returns the empty plan with no
update and no error, and on the equal-tag fixture it returns a plan
whose current and new versions both equal the candidate tag. -/
theorem force_matchtag_iff :
    (∀ cur cand : String,
      policyShouldUpdate (Policy.force true) cur cand = (cur == cand)) ∧
    checkForUpdate (Policy.force true) repoFMDiff wFMDiff "T0" = .ok (emptyPlan, false) ∧
    checkForUpdate (Policy.force true) repoFMEq wFMEq "T0" = .ok (planFMEq, true) ∧
    planFMEq.currentVersion = "1.1.2" ∧ planFMEq.newVersion = "1.1.2" ∧
    repoFMEq.tag = "1.1.2" :=
  ⟨fun cur cand => rfl, by decide, by decide, by decide, by decide, by decide⟩

/-- C6: on every accepted decision, all matched containers are
rewritten in the single emitted plan, and the plan's current version
is the (defaulted) tag of the first matched container in declaration
order; the concrete fixture has two matched containers with different
tags, the first at `latest` while the candidate tag is `1.1.2`, and
the reported current version is `latest`. -/
theorem multi_container_first_match :
    (∀ (p : Policy) (repo : Repository) (w : Workload) (now : String)
        (plan : UpdatePlan),
      checkForUpdate p repo w now = .ok (plan, true) →
      ∃ c0 rest,
        w.containers.filter (fun c => matchesCand p (candidateRef repo) c.image) = c0 :: rest ∧
        plan.currentVersion = containerTag c0.image ∧
        ∃ w', plan.resource = some w' ∧
          w'.containers = w.containers.map (fun c =>
            if matchesCand p (candidateRef repo) c.image
            then { image := renderNewImage (candidateRef repo) }
            else c)) ∧
    checkForUpdate (Policy.force false) repoMulti wMulti "T0" = .ok (planMulti, true) ∧
    planMulti.currentVersion = "latest" ∧ planMulti.newVersion = "1.1.2" ∧
    planMulti.resource = some wMultiAfter ∧
    wMultiAfter.containers = [⟨"gcr.io/v2-namespace/hello-world:1.1.2"⟩,
                              ⟨"gcr.io/v2-namespace/hello-world:1.1.2"⟩] := by
  refine ⟨?_, by decide, by decide, by decide, by decide, by decide⟩
  intro p repo w now plan h
  obtain ⟨c0, rest, hfil, hplan⟩ := checkForUpdate_ok_true p repo w now plan h
  subst hplan
  exact ⟨c0, rest, hfil, rfl, _, rfl, rfl⟩

/-- C6 witness: the general part instantiated on the two-matched-
container fixture. -/
theorem multi_container_first_match_witness :
    ∃ c0 rest,
      wMulti.containers.filter
        (fun c => matchesCand (Policy.force false) (candidateRef repoMulti) c.image) =
        c0 :: rest ∧
      planMulti.currentVersion = containerTag c0.image ∧
      ∃ w', planMulti.resource = some w' ∧
        w'.containers = wMulti.containers.map (fun c =>
          if matchesCand (Policy.force false) (candidateRef repoMulti) c.image
          then { image := renderNewImage (candidateRef repoMulti) }
          else c) :=
  multi_container_first_match.1 (Policy.force false) repoMulti wMulti "T0" planMulti
    (by decide)

/-- C7: a force policy always accepts a candidate tag equal to the
current tag, while a semver policy always rejects it (for every gate
and pre-release setting); concretely, re-running the engine on the
already-updated `karolisr/bow:master` workload under force yields an
accepted plan with current = new = `master` whose only change is the
re-stamped `bow.sh/update-time` annotation, while the semver-all
second run on `1.1.1` yields the empty plan with no update and no
error. -/
theorem force_idempotent_semver_rejects_rerun :
    (∀ (mt : Bool) (t : String), policyShouldUpdate (Policy.force mt) t t = true) ∧
    (∀ (g : SemverGate) (pr : Bool) (t : String),
      policyShouldUpdate (Policy.semver g pr) t t = false) ∧
    checkForUpdate (Policy.force false) repoMaster wMaster "T1" = .ok (planMaster, true) ∧
    planMaster.currentVersion = "master" ∧ planMaster.newVersion = "master" ∧
    planMaster.resource = some wMasterAfter ∧
    wMasterAfter.containers = wMaster.containers ∧
    wMasterAfter.specAnnotations = setAnn wMaster.specAnnotations updateTimeKey "T1" ∧
    checkForUpdate semverAllP repoIgnore wIgnore "T1" = .ok (emptyPlan, false) := by
  refine ⟨?_, ?_, by decide, by decide, by decide, by decide, by decide, by decide,
    by decide⟩
  · intro mt t
    cases mt <;> simp [policyShouldUpdate]
  · intro g pr t
    show semverShouldUpdate g pr t t = false
    unfold semverShouldUpdate
    cases hp : parseSemver t with
    | none => rfl
    | some v =>
      dsimp only
      split_ifs with hpre hcmp
      · rfl
      · rfl
      · exact absurd (by simp [semverCompare_self]) hcmp

/-- C8: an empty candidate tag, an absence of matching containers,
and a policy rejecting every matching container all yield the normal
outcome `(empty plan, false, nil)` rather than an error; a container
image that fails to parse never matches (the container is skipped),
and on the concrete fixture with an unparseable first container the
run still succeeds, leaving that container untouched and updating
the parseable match. -/
theorem engine_normal_outcomes :
    (∀ (p : Policy) (repo : Repository) (w : Workload) (now : String),
      repo.tag = "" → checkForUpdate p repo w now = .ok (emptyPlan, false)) ∧
    (∀ (p : Policy) (repo : Repository) (w : Workload) (now : String)
        (pr : ImageRef),
      parseImage repo.refString = .ok pr →
      w.containers.filter (fun c => matchesCand p (candidateRef repo) c.image) = [] →
      checkForUpdate p repo w now = .ok (emptyPlan, false)) ∧
    (∀ (p : Policy) (cand : ImageRef) (img : String) (e : ParseError),
      parseImage img = .error e → matchesCand p cand img = false) ∧
    parseImage "" = .error ParseError.malformedReference ∧
    checkForUpdate (Policy.force false) repoSkip wSkip "T0" = .ok (planSkip, true) ∧
    planSkip.resource = some wSkipAfter ∧
    wSkipAfter.containers = [⟨""⟩, ⟨"gcr.io/v2-namespace/hello-world:latest"⟩] := by
  refine ⟨?_, ?_, ?_, by decide, by decide, by decide, by decide⟩
  · intro p repo w now h
    unfold checkForUpdate
    rw [h]
    rfl
  · intro p repo w now pr h1 h2
    unfold checkForUpdate
    split
    · rfl
    · split
      · rename_i e heq
        rw [h1] at heq
        exact absurd heq (by simp)
      · simp only [h2]
  · intro p cand img e h
    unfold matchesCand
    rw [h]

/-- C8 witness: the empty-candidate-tag outcome instantiated on a
concrete repository and workload. -/
theorem engine_normal_outcomes_witness :
    checkForUpdate (Policy.force false) ⟨"", "gcr.io/v2-namespace/hello-world", ""⟩
      wUntagged "T0" = .ok (emptyPlan, false) :=
  engine_normal_outcomes.1 (Policy.force false)
    ⟨"", "gcr.io/v2-namespace/hello-world", ""⟩ wUntagged "T0" rfl

/-- C9: a container image string without a tag parses with tag
`latest`; on the `force update untagged to latest` fixture the engine
accepts, reports current = new = `latest`, and rewrites the untagged
container image to `gcr.io/v2-namespace/hello-world:latest`. -/
theorem untagged_container_defaults_latest :
    parseImage "gcr.io/v2-namespace/hello-world" =
      .ok ⟨"gcr.io", "v2-namespace/hello-world", "latest", none⟩ ∧
    checkForUpdate (Policy.force false) repoUntagged wUntagged "T0" =
      .ok (planUntagged, true) ∧
    planUntagged.currentVersion = "latest" ∧ planUntagged.newVersion = "latest" ∧
    planUntagged.resource = some wUntaggedAfter ∧
    wUntaggedAfter.containers = [⟨"gcr.io/v2-namespace/hello-world:latest"⟩] := by
  refine ⟨by decide, by decide, by decide, by decide, by decide, by decide⟩

/-- C10: `getbowConfig` returns `ErrPolicyNotSpecified` exactly when
the values YAML renders and unmarshals successfully and the
unmarshalled bow policy string is empty; every successfully returned
config has a non-empty policy string and its `plc` field is the
policy built from that string with the config's match-tag option. -/
theorem getbowConfig_policy_spec (ys : Except String String)
    (um : String → Except String Root) :
    (getbowConfig ys um = .error HelmError.policyNotSpecified ↔
      ∃ y r, ys = .ok y ∧ um y = .ok r ∧ r.bow.policy = "") ∧
    (∀ cfg, getbowConfig ys um = .ok cfg →
      cfg.policy ≠ "" ∧ cfg.plc = GetPolicy cfg.policy ⟨cfg.matchTag⟩) := by
  unfold getbowConfig
  cases ys with
  | error e => simp
  | ok y =>
    cases hum : um y with
    | error e => simp [hum]
    | ok r =>
      simp only [hum]
      by_cases hp : r.bow.policy = ""
      · have hpb : (r.bow.policy == "") = true := beq_iff_eq.mpr hp
        constructor
        · simp [hpb]
          exact ⟨r, hum, hp⟩
        · intro cfg hcfg
          simp [hpb] at hcfg
      · have hpb : (r.bow.policy == "") = false := beq_eq_false_iff_ne.mpr hp
        constructor
        · simp [hpb]
          intro x hx
          rw [hum] at hx
          injection hx with hx
          subst hx
          exact hp
        · intro cfg hcfg
          simp only [hpb, Bool.false_eq_true, if_false, Except.ok.injEq] at hcfg
          subst hcfg
          exact ⟨hp, rfl⟩

/-- C10 witness: the success conjunct instantiated on a values root
whose policy string is `all`. -/
theorem getbowConfig_policy_spec_witness :
    cfgAll.policy ≠ "" ∧ cfgAll.plc = GetPolicy cfgAll.policy ⟨cfgAll.matchTag⟩ :=
  (getbowConfig_policy_spec (.ok "values") (fun _ => .ok rootAll)).2 cfgAll (by decide)

end Bow
